import Mathlib

/-!
Verification of the command-dispatch and prompt-construction core of
`src/tutor_agent.py` (Tutor-agent repository).

Strings are modelled as `List Char`.  The Python string operations used by the
source (`str.strip`, `str.lower`, `str.replace`, `str.startswith`) are given
executable definitions mirroring Python semantics on ASCII text.  The
generative backend (`model.generate_content`) is modelled as a function from
the prompt to `Except reason text`: `Except.ok` is a successful generation and
`Except.error` is a raised exception, whose handling by the `try/except`
blocks of the source becomes an explicit `match`.
-/

/-- Python whitespace characters recognised by `str.strip` (ASCII range). -/
def isSpace (c : Char) : Bool :=
  c == ' ' || c == '\t' || c == '\n' || c == '\r' || c == '\x0b' || c == '\x0c'

/-- Lowering of a single ASCII character, as Python str.lower does on ASCII. -/
def lowerChar (c : Char) : Char :=
  if 'A' ≤ c && c ≤ 'Z' then Char.ofNat (c.toNat + 32) else c

/-- Python str.lower (ASCII case folding). -/
def lower (s : List Char) : List Char := s.map lowerChar

/-- Remove trailing whitespace (the right half of `str.strip`). -/
def stripRight (s : List Char) : List Char :=
  (s.reverse.dropWhile isSpace).reverse

/-- Python `str.strip()`: remove leading and trailing whitespace. -/
def strip (s : List Char) : List Char :=
  stripRight (s.dropWhile isSpace)

/-- Python `str.startswith`. -/
def startswith : List Char → List Char → Bool
  | _, [] => true
  | [], _ :: _ => false
  | c :: cs, p :: ps => c == p && startswith cs ps

/-- Fuelled worker for `replaceAll`; the fuel is an upper bound on the length
of the remaining text, so recursion is structural. -/
def replaceAllFuel (old : List Char) : Nat → List Char → List Char
  | _, [] => []
  | 0, s => s
  | Nat.succ fuel, c :: cs =>
    match old with
    | [] => c :: cs
    | o :: os =>
      if startswith (c :: cs) (o :: os) then
        replaceAllFuel (o :: os) fuel (List.drop os.length cs)
      else
        c :: replaceAllFuel (o :: os) fuel cs

/-- Python `s.replace(old, '')`: delete every (left-to-right, non-overlapping)
occurrence of `old` in `s`. -/
def replaceAll (old s : List Char) : List Char :=
  replaceAllFuel old s.length s

/-- Model of `parse_chat_command` from `src/tutor_agent.py` (lines 71-90).  The Python
function returns a pair `(command, argument)` with `None` as the argument of
`/help`; `None` is modelled by `Option`. -/
def parse_chat_command (text : List Char) : List Char × Option (List Char) :=
  let t := lower (strip text)
  if startswith t ("/curriculum ".data) then
    ("curriculum".data, some (strip (replaceAll ("/curriculum ".data) t)))
  else if startswith t ("/socratic ".data) then
    ("socratic".data, some (strip (replaceAll ("/socratic ".data) t)))
  else if startswith t ("/quiz ".data) then
    ("quiz".data, some (strip (replaceAll ("/quiz ".data) t)))
  else if startswith t ("/project ".data) then
    ("project".data, some (strip (replaceAll ("/project ".data) t)))
  else if startswith t ("/help".data) then
    ("help".data, none)
  else
    ("general".data, some t)

/-- The generative backend: a prompt string goes in, and either a completion
string (`Except.ok`) or a raised failure (`Except.error reason`) comes out. -/
def Backend : Type := List Char → Except (List Char) (List Char)

/-- The prompt template of `generate_curriculum` (source lines 94-119). -/
def curriculum_prompt (topic : List Char) : List Char :=
  ("\n    Create a practical learning roadmap for \"".data) ++ topic ++
  ("\". Provide:\n    \n    WEEK 1: Foundation\n    - Core concepts to learn\n    - 2-3 hands-on exercises\n    - Recommended resources\n    \n    WEEK 2: Building Skills  \n    - Key skills to develop\n    - Practice projects\n    - Resources\n    \n    WEEK 3: Application\n    - Real-world applications\n    - Intermediate projects\n    - Advanced resources\n    \n    WEEK 4: Mastery\n    - Advanced topics\n    - Capstone project ideas\n    - Next steps\n    \n    Be specific and actionable. Include actual resource names, websites, or tools when possible.\n    Format as clean text without HTML or markdown.\n    ".data)

/-- Model of `generate_curriculum` (source lines 92-124). -/
def generate_curriculum (b : Backend) (topic : List Char) : List Char :=
  match b (curriculum_prompt topic) with
  | Except.ok t => t
  | Except.error e => ("Error generating curriculum: ".data) ++ e

/-- The prompt template of `generate_socratic_questions` (source lines 128-137). -/
def socratic_prompt (concept : List Char) : List Char :=
  ("\n    You are a Socratic tutor helping a student understand \"".data) ++ concept ++
  ("\".\n    Create 6 progressive guiding questions that:\n    1. Start with basic understanding\n    2. Build complexity gradually\n    3. Encourage critical thinking\n    4. Connect to real-world applications\n    \n    Return as a numbered list, one question per line.\n    ".data)

/-- Model of `generate_socratic_questions` (source lines 126-142). -/
def generate_socratic_questions (b : Backend) (concept : List Char) : List Char :=
  match b (socratic_prompt concept) with
  | Except.ok t => t
  | Except.error e => ("Error generating Socratic questions: ".data) ++ e

/-- The prompt template of `generate_quiz` (source lines 146-158). -/
def quiz_prompt (topic : List Char) : List Char :=
  ("\n    Act as a quiz creator. Generate atleast 5 multiple-choice questions on \"".data) ++ topic ++
  ("\".\n    Format each question as:\n    \n    Question X: [Question text]\n    A) [Option A]\n    B) [Option B]  \n    C) [Option C]\n    D) [Option D]\n    Answer: [Correct letter]\n    \n    Include brief explanations for the correct answers.\n    ".data)

/-- Model of `generate_quiz` (source lines 144-163). -/
def generate_quiz (b : Backend) (topic : List Char) : List Char :=
  match b (quiz_prompt topic) with
  | Except.ok t => t
  | Except.error e => ("Error generating quiz: ".data) ++ e

/-- The prompt template of `generate_project` (source lines 167-177). -/
def project_prompt (topic : List Char) : List Char :=
  ("\n    Act as a mentor. Suggest a beginner-friendly project for \"".data) ++ topic ++
  ("\".\n    Include:\n    - Project overview\n    - Learning objectives\n    - Step-by-step breakdown\n    - Required resources\n    - Expected timeline\n    \n    Keep it practical and achievable.\n    ".data)

/-- Model of `generate_project` (source lines 165-182). -/
def generate_project (b : Backend) (topic : List Char) : List Char :=
  match b (project_prompt topic) with
  | Except.ok t => t
  | Except.error e => ("Error generating project: ".data) ++ e

/-- Model of `get_help_text` (source lines 184-198). -/
def get_help_text : List Char :=
  ("\n🎓 Welcome to your AI Tutor! Here are the available commands:\n\n📚 /curriculum [topic] - Get a 4-week learning curriculum\n❓ /socratic [concept] - Get Socratic questioning for deeper understanding  \n📝 /quiz [topic] - Generate practice quiz questions\n🛠️ /project [topic] - Get project suggestions and guidance\n❓ /help - Show this help message\n\nYou can also just chat naturally and I'll do my best to help with your learning!\n\nExample: \"/curriculum machine learning\" or \"/quiz python basics\"\n    ".data)

/-- Opening part of the general-intent prompt of `handle_message`
(source lines 246-266); the student's original message is spliced in
between `general_prompt_head` and `general_prompt_tail`. -/
def general_prompt_head : List Char :=
  ("\n                You are a helpful AI tutor. The student said: \"".data)

/-- Closing part of the general-intent prompt of `handle_message`. -/
def general_prompt_tail : List Char :=
  ("\"\n                \n                IMPORTANT: Provide direct, actionable help. Don't ask multiple questions back.\n                \n                If they want to learn something:\n                - Give them a clear, practical roadmap or explanation\n                - Provide specific steps they can take\n                - Include resources or next actions\n                \n                If they ask about a concept:\n                - Explain it clearly with examples\n                - Make it practical and applicable\n                \n                If they want a roadmap for a topic:\n                - Create a structured learning path\n                - Include timeframes and milestones\n                - Suggest specific resources\n                \n                Keep your response direct, practical, and immediately useful. Avoid asking multiple clarifying questions - instead, provide the most commonly needed information for their request.\n                ".data)

/-- The general-intent prompt, parameterized by the raw message text
(the source embeds `item.text`, not the parsed argument). -/
def general_prompt (text : List Char) : List Char :=
  general_prompt_head ++ text ++ general_prompt_tail

/-- The fixed apology returned when the backend fails on the general path
(source line 271). -/
def general_apology : List Char :=
  ("I'm having trouble processing that right now. Try using one of the specific commands like /help to see what I can do!".data)

/-- The general-intent `try/except` block of `handle_message`
(source lines 267-271). -/
def generalRespond (b : Backend) (text : List Char) : List Char :=
  match b (general_prompt text) with
  | Except.ok t => t
  | Except.error _ => general_apology

/-- Python truthiness of the parsed argument: `None` and the empty string are
falsy, every other string is truthy. -/
def truthy : Option (List Char) → Bool
  | none => false
  | some s => !(s == [])

/-- The `TextContent` branch of `handle_message` (source lines 226-275):
derive the command and content with `parse_chat_command`, then dispatch. -/
def handle_text (b : Backend) (text : List Char) : List Char :=
  let pr := parse_chat_command text
  if pr.1 == ("curriculum".data) && truthy pr.2 then
    generate_curriculum b (pr.2.getD [])
  else if pr.1 == ("socratic".data) && truthy pr.2 then
    generate_socratic_questions b (pr.2.getD [])
  else if pr.1 == ("quiz".data) && truthy pr.2 then
    generate_quiz b (pr.2.getD [])
  else if pr.1 == ("project".data) && truthy pr.2 then
    generate_project b (pr.2.getD [])
  else if pr.1 == ("help".data) then
    get_help_text
  else
    generalRespond b text

/-- The kinds of content item a `ChatMessage` can carry
(`StartSessionContent`, `TextContent`, `EndSessionContent`, anything else). -/
inductive ContentItem where
  | startSession : ContentItem
  | text : List Char → ContentItem
  | endSession : ContentItem
  | other : ContentItem

/-- Outbound transport events produced by `handle_message`: the
acknowledgement referencing the inbound message id, and chat messages
(`create_text_chat`), whose flag records an attached `EndSessionContent`. -/
inductive Outbound where
  | ack : Nat → Outbound
  | chat : List Char → Bool → Outbound

/-- The fixed welcome string sent on `StartSessionContent` (source lines 221-223). -/
def welcome_text : List Char :=
  ("🎓 Welcome to your AI Tutor! Type /help to see available commands or just start asking questions!".data)

/-- The fixed farewell string sent on `EndSessionContent` (source lines 279-281). -/
def farewell_text : List Char :=
  ("👋 Thanks for learning with me today! Feel free to start a new session anytime you need help.".data)

/-- One iteration of the `for item in msg.content` loop of `handle_message`
(source lines 218-286): the messages sent for one content item. -/
def handleItem (b : Backend) : ContentItem → List Outbound
  | ContentItem.startSession => [Outbound.chat welcome_text false]
  | ContentItem.text t => [Outbound.chat (handle_text b t) false]
  | ContentItem.endSession => [Outbound.chat farewell_text true]
  | ContentItem.other => []

/-- Model of `handle_message` (source lines 205-286): send the acknowledgement for the
inbound message id, then process each content item in order. -/
def handle_message (b : Backend) (msgId : Nat) (content : List ContentItem) : List Outbound :=
  Outbound.ack msgId :: content.flatMap (handleItem b)

/-- Substring test (used only to state properties about the fixed strings). -/
def containsSub : List Char → List Char → Bool
  | [], pat => pat == []
  | c :: cs, pat => startswith (c :: cs) pat || containsSub cs pat


lemma startswith_nil (l : List Char) : startswith l [] = true := by
  cases l <;> rfl

lemma startswith_append_self (p x : List Char) : startswith (p ++ x) p = true := by
  induction p with
  | nil => simpa using startswith_nil x
  | cons c cs ih => simp [startswith, ih]

lemma startswith_trans_of_le (t p q : List Char) (hp : startswith t p = true)
    (hq : startswith t q = true) (hle : q.length ≤ p.length) :
    startswith p q = true := by
  induction t generalizing p q with
  | nil =>
    cases q with
    | nil => cases p <;> rfl
    | cons q0 qs => simp [startswith] at hq
  | cons c cs ih =>
    cases q with
    | nil => cases p <;> rfl
    | cons q0 qs =>
      cases p with
      | nil => simp at hle
      | cons p0 ps =>
        simp only [startswith, Bool.and_eq_true, beq_iff_eq] at hp hq ⊢
        obtain ⟨hc1, hp2⟩ := hp
        obtain ⟨hc2, hq2⟩ := hq
        subst hc1; subst hc2
        exact ⟨rfl, ih ps qs hp2 hq2 (by simpa using hle)⟩

lemma replaceAllFuel_congr (old : List Char) (n : Nat) :
    ∀ (m : Nat) (s : List Char), s.length ≤ n → s.length ≤ m →
      replaceAllFuel old n s = replaceAllFuel old m s := by
  induction n with
  | zero =>
    intro m s hn _
    have hs : s = [] := List.length_eq_zero.mp (Nat.le_zero.mp hn)
    subst hs
    cases m <;> rfl
  | succ n ih =>
    intro m s hn hm
    cases s with
    | nil => cases m <;> rfl
    | cons c cs =>
      cases m with
      | zero => simp at hm
      | succ m =>
        cases old with
        | nil => rfl
        | cons o os =>
          simp only [List.length_cons, Nat.succ_le_succ_iff] at hn hm
          simp only [replaceAllFuel]
          by_cases hsw : startswith (c :: cs) (o :: os) = true
          · rw [if_pos hsw, if_pos hsw]
            apply ih
            · calc (List.drop os.length cs).length ≤ cs.length := by
                    simp [List.length_drop]
                _ ≤ n := hn
            · calc (List.drop os.length cs).length ≤ cs.length := by
                    simp [List.length_drop]
                _ ≤ m := hm
          · rw [if_neg hsw, if_neg hsw]
            exact congrArg (c :: ·) (ih m cs hn hm)

lemma replaceAll_append_self (o : Char) (os x : List Char) :
    replaceAll (o :: os) ((o :: os) ++ x) = replaceAll (o :: os) x := by
  have hsw : startswith (o :: (os ++ x)) (o :: os) = true := by
    have := startswith_append_self (o :: os) x
    simpa [List.cons_append] using this
  unfold replaceAll
  simp only [List.cons_append, List.length_cons, replaceAllFuel, List.append_eq]
  rw [if_pos hsw, List.drop_left]
  apply replaceAllFuel_congr
  · simp [List.length_append]
  · exact Nat.le_refl _

lemma replaceAll_cons_of_head_ne (o c : Char) (os u : List Char) (h : (c == o) = false) :
    replaceAll (o :: os) (c :: u) = c :: replaceAll (o :: os) u := by
  have hsw : startswith (c :: u) (o :: os) = false := by
    simp [startswith, h]
  unfold replaceAll
  simp only [List.length_cons, replaceAllFuel, hsw]
  simp

lemma ws_head_ne (o c : Char) (hc : isSpace c = true) (ho : isSpace o = false) :
    (c == o) = false := by
  cases h : (c == o) with
  | false => rfl
  | true =>
    have : c = o := beq_iff_eq.mp h
    subst this
    rw [hc] at ho
    exact absurd ho (by simp)

lemma replaceAll_ws_append (o : Char) (os ws u : List Char)
    (hws : ∀ c ∈ ws, isSpace c = true) (ho : isSpace o = false) :
    replaceAll (o :: os) (ws ++ u) = ws ++ replaceAll (o :: os) u := by
  induction ws with
  | nil => simp
  | cons c cs ih =>
    have hc : isSpace c = true := hws c (List.mem_cons_self c cs)
    rw [List.cons_append, replaceAll_cons_of_head_ne o c os (cs ++ u) (ws_head_ne o c hc ho)]
    rw [ih (fun x hx => hws x (List.mem_cons_of_mem c hx))]
    rfl

lemma dropWhile_append_of_ne_nil (p : Char → Bool) (l m : List Char)
    (h : l.dropWhile p ≠ []) :
    (l ++ m).dropWhile p = l.dropWhile p ++ m := by
  rw [List.dropWhile_append]
  simp [List.isEmpty_iff, h]

lemma dropWhile_ws_append (p : Char → Bool) (ws v : List Char)
    (h : ∀ c ∈ ws, p c = true) :
    (ws ++ v).dropWhile p = v.dropWhile p := by
  rw [List.dropWhile_append]
  simp [List.isEmpty_iff, List.dropWhile_eq_nil_iff.mpr h]

lemma stripRight_append_of_ne_nil (a b : List Char) (h : stripRight b ≠ []) :
    stripRight (a ++ b) = a ++ stripRight b := by
  unfold stripRight at *
  have hb : b.reverse.dropWhile isSpace ≠ [] := by
    intro hc
    rw [hc] at h
    exact h rfl
  rw [List.reverse_append, dropWhile_append_of_ne_nil isSpace b.reverse a.reverse hb,
    List.reverse_append, List.reverse_reverse]

lemma stripRight_append_ws (v ws : List Char) (h : ∀ c ∈ ws, isSpace c = true) :
    stripRight (v ++ ws) = stripRight v := by
  unfold stripRight
  rw [List.reverse_append, dropWhile_ws_append isSpace ws.reverse v.reverse
    (fun c hc => h c (List.mem_reverse.mp hc))]

lemma strip_ws_append (ws v : List Char) (h : ∀ c ∈ ws, isSpace c = true) :
    strip (ws ++ v) = strip v := by
  unfold strip
  rw [dropWhile_ws_append isSpace ws v h]

lemma stripRight_eq_takeWhile_append (arg : List Char) (h : strip arg ≠ []) :
    stripRight arg = arg.takeWhile isSpace ++ strip arg := by
  have h2 : stripRight (arg.dropWhile isSpace) ≠ [] := h
  conv_lhs => rw [← List.takeWhile_append_dropWhile (p := isSpace) (l := arg)]
  rw [stripRight_append_of_ne_nil _ _ h2]
  rfl

lemma lowerChar_of_space (c : Char) (h : isSpace c = true) : lowerChar c = c := by
  simp only [isSpace, Bool.or_eq_true, beq_iff_eq] at h
  rcases h with ((((h | h) | h) | h) | h) | h <;> (subst h; rfl)

lemma lower_eq_self_of_ws (ws : List Char) (h : ∀ c ∈ ws, isSpace c = true) :
    lower ws = ws := by
  induction ws with
  | nil => rfl
  | cons c cs ih =>
    simp only [lower, List.map_cons]
    rw [lowerChar_of_space c (h c (List.mem_cons_self c cs))]
    have := ih (fun x hx => h x (List.mem_cons_of_mem c hx))
    simp only [lower] at this
    rw [this]

lemma lower_append (a b : List Char) : lower (a ++ b) = lower a ++ lower b := by
  simp [lower]

lemma startswith_false_of_startswith (t p q : List Char) (hp : startswith t p = true)
    (hle : p.length ≤ q.length) (hq : startswith q p = false) :
    startswith t q = false := by
  cases hc : startswith t q with
  | false => rfl
  | true =>
    have h2 := startswith_trans_of_le t q p hc hp hle
    rw [h2] at hq
    exact absurd hq (by simp)

lemma parse_eq_of_startswith_curriculum (s : List Char)
    (h : startswith (lower (strip s)) ("/curriculum ".data) = true) :
    parse_chat_command s =
      ("curriculum".data, some (strip (replaceAll ("/curriculum ".data) (lower (strip s))))) := by
  simp [parse_chat_command, h]

lemma parse_eq_of_startswith_socratic (s : List Char)
    (h : startswith (lower (strip s)) ("/socratic ".data) = true) :
    parse_chat_command s =
      ("socratic".data, some (strip (replaceAll ("/socratic ".data) (lower (strip s))))) := by
  have hcur := startswith_false_of_startswith (lower (strip s)) ("/socratic ".data)
    ("/curriculum ".data) h (by decide) (by decide)
  simp [parse_chat_command, hcur, h]

lemma parse_eq_of_startswith_quiz (s : List Char)
    (h : startswith (lower (strip s)) ("/quiz ".data) = true) :
    parse_chat_command s =
      ("quiz".data, some (strip (replaceAll ("/quiz ".data) (lower (strip s))))) := by
  have hcur := startswith_false_of_startswith (lower (strip s)) ("/quiz ".data)
    ("/curriculum ".data) h (by decide) (by decide)
  have hsoc := startswith_false_of_startswith (lower (strip s)) ("/quiz ".data)
    ("/socratic ".data) h (by decide) (by decide)
  simp [parse_chat_command, hcur, hsoc, h]

lemma startswith_false_of_startswith_rev (t p q : List Char) (hp : startswith t p = true)
    (hle : q.length ≤ p.length) (hq : startswith p q = false) :
    startswith t q = false := by
  cases hc : startswith t q with
  | false => rfl
  | true =>
    have h2 := startswith_trans_of_le t p q hp hc hle
    rw [h2] at hq
    exact absurd hq (by simp)

lemma parse_eq_of_startswith_project (s : List Char)
    (h : startswith (lower (strip s)) ("/project ".data) = true) :
    parse_chat_command s =
      ("project".data, some (strip (replaceAll ("/project ".data) (lower (strip s))))) := by
  have hcur := startswith_false_of_startswith (lower (strip s)) ("/project ".data)
    ("/curriculum ".data) h (by decide) (by decide)
  have hsoc := startswith_false_of_startswith (lower (strip s)) ("/project ".data)
    ("/socratic ".data) h (by decide) (by decide)
  have hqui := startswith_false_of_startswith_rev (lower (strip s)) ("/project ".data)
    ("/quiz ".data) h (by decide) (by decide)
  simp [parse_chat_command, hcur, hsoc, hqui, h]

lemma parse_eq_general (s : List Char)
    (h1 : startswith (lower (strip s)) ("/curriculum ".data) = false)
    (h2 : startswith (lower (strip s)) ("/socratic ".data) = false)
    (h3 : startswith (lower (strip s)) ("/quiz ".data) = false)
    (h4 : startswith (lower (strip s)) ("/project ".data) = false)
    (h5 : startswith (lower (strip s)) ("/help".data) = false) :
    parse_chat_command s = ("general".data, some (lower (strip s))) := by
  simp [parse_chat_command, h1, h2, h3, h4, h5]

lemma parse_arg_core (P : List Char) (o : Char) (os arg : List Char)
    (hP : P = o :: os) (ho : isSpace o = false) (hlow : lower P = P)
    (h : strip arg ≠ []) :
    lower (strip (P ++ arg)) = P ++ lower (stripRight arg) ∧
    strip (replaceAll P (P ++ lower (stripRight arg))) =
      strip (replaceAll P (lower (strip arg))) := by
  have hsrne : stripRight arg ≠ [] := by
    rw [stripRight_eq_takeWhile_append arg h]
    intro hc
    rcases List.append_eq_nil.mp hc with ⟨_, hc2⟩
    exact h hc2
  constructor
  · have hd : (P ++ arg).dropWhile isSpace = P ++ arg := by
      subst hP
      simp [List.cons_append, List.dropWhile_cons, ho]
    have hst : strip (P ++ arg) = P ++ stripRight arg := by
      unfold strip
      rw [hd]
      exact stripRight_append_of_ne_nil P arg hsrne
    rw [hst, lower_append, hlow]
  · subst hP
    rw [replaceAll_append_self]
    rw [stripRight_eq_takeWhile_append arg h, lower_append,
      lower_eq_self_of_ws _ (fun c hc => List.mem_takeWhile_imp hc),
      replaceAll_ws_append o os _ _ (fun c hc => List.mem_takeWhile_imp hc) ho,
      strip_ws_append _ _ (fun c hc => List.mem_takeWhile_imp hc)]

lemma handle_text_general (b : Backend) (s t : List Char)
    (hp : parse_chat_command s = ("general".data, some t)) :
    handle_text b s = generalRespond b s := by
  have e1 : (("general".data : List Char) == ("curriculum".data : List Char)) = false := by decide
  have e2 : (("general".data : List Char) == ("socratic".data : List Char)) = false := by decide
  have e3 : (("general".data : List Char) == ("quiz".data : List Char)) = false := by decide
  have e4 : (("general".data : List Char) == ("project".data : List Char)) = false := by decide
  have e5 : (("general".data : List Char) == ("help".data : List Char)) = false := by decide
  simp [handle_text, hp, e1, e2, e3, e4, e5]

lemma handle_text_quiz_branch (b : Backend) (s t : List Char)
    (hp : parse_chat_command s = ("quiz".data, some t)) (ht : (t == []) = false) :
    handle_text b s = generate_quiz b t := by
  have e1 : (("quiz".data : List Char) == ("curriculum".data : List Char)) = false := by decide
  have e2 : (("quiz".data : List Char) == ("socratic".data : List Char)) = false := by decide
  simp [handle_text, hp, truthy, ht, e1, e2]

lemma handle_text_bare (b : Backend) (v ws : List Char)
    (hws : ∀ c ∈ ws, isSpace c = true)
    (hv1 : List.dropWhile isSpace v = v) (hv2 : v ≠ [])
    (hv3 : stripRight v = v) (hv4 : lower v = v)
    (h1 : startswith v ("/curriculum ".data) = false)
    (h2 : startswith v ("/socratic ".data) = false)
    (h3 : startswith v ("/quiz ".data) = false)
    (h4 : startswith v ("/project ".data) = false)
    (h5 : startswith v ("/help".data) = false) :
    parse_chat_command (v ++ ws) = ("general".data, some v) ∧
    handle_text b (v ++ ws) = generalRespond b (v ++ ws) := by
  have hdw : List.dropWhile isSpace v ≠ [] := by rw [hv1]; exact hv2
  have hstrip : strip (v ++ ws) = v := by
    unfold strip
    rw [dropWhile_append_of_ne_nil isSpace v ws hdw, hv1, stripRight_append_ws v ws hws, hv3]
  have ht : lower (strip (v ++ ws)) = v := by rw [hstrip, hv4]
  have hp := parse_eq_general (v ++ ws) (by rw [ht]; exact h1) (by rw [ht]; exact h2)
    (by rw [ht]; exact h3) (by rw [ht]; exact h4) (by rw [ht]; exact h5)
  rw [ht] at hp
  exact ⟨hp, handle_text_general b (v ++ ws) v hp⟩

/-- C1 counterexample: parsing the text "/quiz Python" yields the argument
"python", not "Python" — the parser lower-cases the argument content, so case
is not used only for matching as the claim states. -/
theorem C1_counterexample :
    parse_chat_command ("/quiz Python".data) ≠ ("quiz".data, some ("Python".data)) ∧
    parse_chat_command ("/quiz Python".data) = ("quiz".data, some ("python".data)) := by
  decide

/-- C1 (amended): for every recognized templated prefix P and every argument
string arg containing at least one non-whitespace character, parsing P ++ arg
yields P's command tag, and the argument is arg trimmed, lower-cased, with
every occurrence of P deleted, and trimmed again — the argument content is
case-folded rather than case-preserved (whitespace-only arguments instead fall
through to the general intent, see C6). -/
theorem C1_prefix_parse (arg : List Char) (h : strip arg ≠ []) :
    parse_chat_command (("/curriculum ".data) ++ arg) =
      ("curriculum".data, some (strip (replaceAll ("/curriculum ".data) (lower (strip arg))))) ∧
    parse_chat_command (("/socratic ".data) ++ arg) =
      ("socratic".data, some (strip (replaceAll ("/socratic ".data) (lower (strip arg))))) ∧
    parse_chat_command (("/quiz ".data) ++ arg) =
      ("quiz".data, some (strip (replaceAll ("/quiz ".data) (lower (strip arg))))) ∧
    parse_chat_command (("/project ".data) ++ arg) =
      ("project".data, some (strip (replaceAll ("/project ".data) (lower (strip arg))))) := by
  refine ⟨?_, ?_, ?_, ?_⟩
  · obtain ⟨h1, h2⟩ := parse_arg_core ("/curriculum ".data) '/' ("curriculum ".data) arg rfl
      (by decide) (by decide) h
    have hsw : startswith (lower (strip (("/curriculum ".data) ++ arg))) ("/curriculum ".data) = true := by
      rw [h1]; exact startswith_append_self _ _
    rw [parse_eq_of_startswith_curriculum _ hsw, h1, h2]
  · obtain ⟨h1, h2⟩ := parse_arg_core ("/socratic ".data) '/' ("socratic ".data) arg rfl
      (by decide) (by decide) h
    have hsw : startswith (lower (strip (("/socratic ".data) ++ arg))) ("/socratic ".data) = true := by
      rw [h1]; exact startswith_append_self _ _
    rw [parse_eq_of_startswith_socratic _ hsw, h1, h2]
  · obtain ⟨h1, h2⟩ := parse_arg_core ("/quiz ".data) '/' ("quiz ".data) arg rfl
      (by decide) (by decide) h
    have hsw : startswith (lower (strip (("/quiz ".data) ++ arg))) ("/quiz ".data) = true := by
      rw [h1]; exact startswith_append_self _ _
    rw [parse_eq_of_startswith_quiz _ hsw, h1, h2]
  · obtain ⟨h1, h2⟩ := parse_arg_core ("/project ".data) '/' ("project ".data) arg rfl
      (by decide) (by decide) h
    have hsw : startswith (lower (strip (("/project ".data) ++ arg))) ("/project ".data) = true := by
      rw [h1]; exact startswith_append_self _ _
    rw [parse_eq_of_startswith_project _ hsw, h1, h2]

/-- C1 witness: concrete instance at the argument " Python ", which parses to
the lower-cased trimmed argument "python". -/
theorem C1_prefix_parse_witness :
    parse_chat_command (("/quiz ".data) ++ (" Python ".data)) =
      ("quiz".data, some (strip (replaceAll ("/quiz ".data) (lower (strip (" Python ".data)))))) ∧
    strip (replaceAll ("/quiz ".data) (lower (strip (" Python ".data)))) = ("python".data) :=
  ⟨(C1_prefix_parse (" Python ".data) (by decide)).2.2.1, by decide⟩

/-- C2: responding to any inbound text — the composition of parsing and
responding — is a total function into strings for every backend, including the
empty string and a bare command prefix with no argument; all backend failures
are absorbed inside the responder. -/
theorem C2_respond_total (b : Backend) (text : List Char) (msgId : Nat)
    (content : List ContentItem) :
    (∃ s, handle_text b text = s) ∧
    (∃ outs, handle_message b msgId content = outs) ∧
    handle_text b [] = generalRespond b [] ∧
    handle_text b ("/quiz".data) = generalRespond b ("/quiz".data) ∧
    handle_text b ("/help".data) = get_help_text :=
  ⟨⟨_, rfl⟩, ⟨_, rfl⟩, rfl, rfl, rfl⟩

/-- C3: when the backend call raises for one of the four templated intents,
the returned string is exactly "Error generating <kind>: " followed by the
failure reason; when it raises on the general path, the returned string is the
fixed apology, which is independent of the reason and mentions /help. -/
theorem C3_backend_failure_strings (b : Backend) (topic reason : List Char) :
    (b (curriculum_prompt topic) = Except.error reason →
      generate_curriculum b topic = ("Error generating curriculum: ".data) ++ reason) ∧
    (b (socratic_prompt topic) = Except.error reason →
      generate_socratic_questions b topic = ("Error generating Socratic questions: ".data) ++ reason) ∧
    (b (quiz_prompt topic) = Except.error reason →
      generate_quiz b topic = ("Error generating quiz: ".data) ++ reason) ∧
    (b (project_prompt topic) = Except.error reason →
      generate_project b topic = ("Error generating project: ".data) ++ reason) ∧
    (b (general_prompt topic) = Except.error reason →
      generalRespond b topic = general_apology) ∧
    containsSub general_apology ("/help".data) = true := by
  refine ⟨fun hb => ?_, fun hb => ?_, fun hb => ?_, fun hb => ?_, fun hb => ?_, by decide⟩
  · simp [generate_curriculum, hb]
  · simp [generate_socratic_questions, hb]
  · simp [generate_quiz, hb]
  · simp [generate_project, hb]
  · simp [generalRespond, hb]

/-- C3 witness: concrete failing backend with reason "boom" and topic
"python" for all five paths. -/
theorem C3_backend_failure_strings_witness :
    generate_curriculum (fun _ => Except.error ("boom".data)) ("python".data) =
      ("Error generating curriculum: ".data) ++ ("boom".data) ∧
    generate_socratic_questions (fun _ => Except.error ("boom".data)) ("python".data) =
      ("Error generating Socratic questions: ".data) ++ ("boom".data) ∧
    generate_quiz (fun _ => Except.error ("boom".data)) ("python".data) =
      ("Error generating quiz: ".data) ++ ("boom".data) ∧
    generate_project (fun _ => Except.error ("boom".data)) ("python".data) =
      ("Error generating project: ".data) ++ ("boom".data) ∧
    generalRespond (fun _ => Except.error ("boom".data)) ("python".data) = general_apology := by
  obtain ⟨h1, h2, h3, h4, h5, _⟩ :=
    C3_backend_failure_strings (fun _ => Except.error ("boom".data)) ("python".data) ("boom".data)
  exact ⟨h1 rfl, h2 rfl, h3 rfl, h4 rfl, h5 rfl⟩

/-- C4 counterexample: parsing "Hello World " yields the general intent
carrying the trimmed lower-cased text "hello world", not the original
untrimmed case-preserved text the claim states. -/
theorem C4_counterexample :
    parse_chat_command ("Hello World ".data) ≠ ("general".data, some ("Hello World ".data)) ∧
    parse_chat_command ("Hello World ".data) = ("general".data, some ("hello world".data)) := by
  decide

/-- C4 (amended): for every input matching no recognized command prefix,
parse yields the general tag carrying the trimmed lower-cased text (not the
original text); the handler nevertheless passes the original, unmodified
message text into the general prompt. -/
theorem C4_general_intent (b : Backend) (s : List Char)
    (h1 : startswith (lower (strip s)) ("/curriculum ".data) = false)
    (h2 : startswith (lower (strip s)) ("/socratic ".data) = false)
    (h3 : startswith (lower (strip s)) ("/quiz ".data) = false)
    (h4 : startswith (lower (strip s)) ("/project ".data) = false)
    (h5 : startswith (lower (strip s)) ("/help".data) = false) :
    parse_chat_command s = ("general".data, some (lower (strip s))) ∧
    handle_text b s = generalRespond b s ∧
    general_prompt s = general_prompt_head ++ s ++ general_prompt_tail := by
  have hp := parse_eq_general s h1 h2 h3 h4 h5
  exact ⟨hp, handle_text_general b s _ hp, rfl⟩

/-- C4 witness: concrete instance at the input "Hello World " with a
succeeding backend. -/
theorem C4_general_intent_witness :
    (parse_chat_command ("Hello World ".data) =
      ("general".data, some (lower (strip ("Hello World ".data)))) ∧
    handle_text (fun _ => Except.ok []) ("Hello World ".data) =
      generalRespond (fun _ => Except.ok []) ("Hello World ".data) ∧
    general_prompt ("Hello World ".data) =
      general_prompt_head ++ ("Hello World ".data) ++ general_prompt_tail) ∧
    lower (strip ("Hello World ".data)) = ("hello world".data) :=
  ⟨C4_general_intent (fun _ => Except.ok []) ("Hello World ".data)
    (by decide) (by decide) (by decide) (by decide) (by decide), by decide⟩

set_option maxRecDepth 16384 in
/-- C5: responding to "/help" returns the constant help text for every
backend — so no backend call influences it — and that text contains all five
command tokens. -/
theorem C5_help_static (b b2 : Backend) :
    handle_text b ("/help".data) = get_help_text ∧
    handle_text b ("/help".data) = handle_text b2 ("/help".data) ∧
    containsSub get_help_text ("/curriculum".data) = true ∧
    containsSub get_help_text ("/socratic".data) = true ∧
    containsSub get_help_text ("/quiz".data) = true ∧
    containsSub get_help_text ("/project".data) = true ∧
    containsSub get_help_text ("/help".data) = true :=
  ⟨rfl, rfl, by decide, by decide, by decide, by decide, by decide⟩

/-- C6: a recognized command prefix followed only by whitespace (for example
the bare text "/quiz") is handled by the general-intent path on the original
text, not by templated generation or a usage error. -/
theorem C6_empty_argument (b : Backend) (ws : List Char)
    (hws : ∀ c ∈ ws, isSpace c = true) :
    handle_text b (("/curriculum".data) ++ ws) = generalRespond b (("/curriculum".data) ++ ws) ∧
    handle_text b (("/socratic".data) ++ ws) = generalRespond b (("/socratic".data) ++ ws) ∧
    handle_text b (("/quiz".data) ++ ws) = generalRespond b (("/quiz".data) ++ ws) ∧
    handle_text b (("/project".data) ++ ws) = generalRespond b (("/project".data) ++ ws) := by
  refine ⟨?_, ?_, ?_, ?_⟩ <;>
    exact (handle_text_bare b _ ws hws (by decide) (by decide) (by decide) (by decide)
      (by decide) (by decide) (by decide) (by decide) (by decide)).2

/-- C6 witness: concrete instance at the bare text "/quiz" with a failing
backend, which therefore produces the general apology. -/
theorem C6_empty_argument_witness :
    handle_text (fun _ => Except.error []) (("/quiz".data) ++ ([] : List Char)) =
      generalRespond (fun _ => Except.error []) (("/quiz".data) ++ ([] : List Char)) ∧
    generalRespond (fun _ => Except.error []) ("/quiz".data) = general_apology :=
  ⟨(C6_empty_argument (fun _ => Except.error []) [] (by simp)).2.2.1, rfl⟩

/-- C7: for each recognized templated prefix P, every input whose trimmed
lower-cased form starts with P parses to P's command, with argument the
trimmed lower-cased input with every occurrence of P removed (not only the
leading one) and trimmed. -/
theorem C7_replace_all_occurrences :
    (∀ s, startswith (lower (strip s)) ("/curriculum ".data) = true →
      parse_chat_command s =
        ("curriculum".data, some (strip (replaceAll ("/curriculum ".data) (lower (strip s)))))) ∧
    (∀ s, startswith (lower (strip s)) ("/socratic ".data) = true →
      parse_chat_command s =
        ("socratic".data, some (strip (replaceAll ("/socratic ".data) (lower (strip s)))))) ∧
    (∀ s, startswith (lower (strip s)) ("/quiz ".data) = true →
      parse_chat_command s =
        ("quiz".data, some (strip (replaceAll ("/quiz ".data) (lower (strip s)))))) ∧
    (∀ s, startswith (lower (strip s)) ("/project ".data) = true →
      parse_chat_command s =
        ("project".data, some (strip (replaceAll ("/project ".data) (lower (strip s)))))) :=
  ⟨parse_eq_of_startswith_curriculum, parse_eq_of_startswith_socratic,
    parse_eq_of_startswith_quiz, parse_eq_of_startswith_project⟩

/-- C7 witness: the input "/quiz python /quiz basics" parses to the argument
"python basics": the embedded occurrence of "/quiz " is deleted as well. -/
theorem C7_replace_all_occurrences_witness :
    parse_chat_command ("/quiz python /quiz basics".data) =
      ("quiz".data, some (strip (replaceAll ("/quiz ".data)
        (lower (strip ("/quiz python /quiz basics".data)))))) ∧
    strip (replaceAll ("/quiz ".data) (lower (strip ("/quiz python /quiz basics".data)))) =
      ("python basics".data) :=
  ⟨C7_replace_all_occurrences.2.2.1 ("/quiz python /quiz basics".data) (by decide), by decide⟩

/-- C8: a TextContent item produces exactly one outbound chat message,
computed from the single parsed intent of its text; session-start and
session-end items produce the fixed greeting and farewell strings without
going through intent classification. -/
theorem C8_one_response_per_item (b : Backend) (t : List Char) :
    handleItem b (ContentItem.text t) = [Outbound.chat (handle_text b t) false] ∧
    (handleItem b (ContentItem.text t)).length = 1 ∧
    handleItem b ContentItem.startSession = [Outbound.chat welcome_text false] ∧
    handleItem b ContentItem.endSession = [Outbound.chat farewell_text true] :=
  ⟨rfl, rfl, rfl, rfl⟩

/-- C9: when the backend call succeeds for a templated intent, the responder
returns the backend's generated text unchanged, with no added wrapping; in
particular for the input "/quiz python basics". -/
theorem C9_success_passthrough (b : Backend) (topic out : List Char) :
    (b (curriculum_prompt topic) = Except.ok out → generate_curriculum b topic = out) ∧
    (b (socratic_prompt topic) = Except.ok out → generate_socratic_questions b topic = out) ∧
    (b (quiz_prompt topic) = Except.ok out → generate_quiz b topic = out) ∧
    (b (project_prompt topic) = Except.ok out → generate_project b topic = out) ∧
    (b (quiz_prompt ("python basics".data)) = Except.ok out →
      handle_text b ("/quiz python basics".data) = out) := by
  refine ⟨fun hb => ?_, fun hb => ?_, fun hb => ?_, fun hb => ?_, fun hb => ?_⟩
  · simp [generate_curriculum, hb]
  · simp [generate_socratic_questions, hb]
  · simp [generate_quiz, hb]
  · simp [generate_project, hb]
  · rw [handle_text_quiz_branch b ("/quiz python basics".data) ("python basics".data)
      (by decide) (by decide)]
    simp [generate_quiz, hb]

/-- C9 witness: input "/quiz python basics" with the backend returning
"Question 1: ...\nAnswer: B" produces exactly that text. -/
theorem C9_success_passthrough_witness :
    generate_quiz (fun _ => Except.ok ("Question 1: ...\nAnswer: B".data)) ("python basics".data) =
      ("Question 1: ...\nAnswer: B".data) ∧
    handle_text (fun _ => Except.ok ("Question 1: ...\nAnswer: B".data))
      ("/quiz python basics".data) = ("Question 1: ...\nAnswer: B".data) := by
  obtain ⟨_, _, h3, _, h5⟩ :=
    C9_success_passthrough (fun _ => Except.ok ("Question 1: ...\nAnswer: B".data))
      ("python basics".data) ("Question 1: ...\nAnswer: B".data)
  exact ⟨h3 rfl, h5 rfl⟩

/-- C10: handle_message emits the acknowledgement referencing the inbound
message id as its first outbound event, independently of the backend and of
the message content, hence regardless of processing outcome. -/
theorem C10_ack_unconditional (b b2 : Backend) (msgId : Nat)
    (content content2 : List ContentItem) :
    handle_message b msgId content = Outbound.ack msgId :: content.flatMap (handleItem b) ∧
    (handle_message b msgId content).head? = some (Outbound.ack msgId) ∧
    (handle_message b msgId content).head? = (handle_message b2 msgId content2).head? :=
  ⟨rfl, rfl, rfl⟩
